import Mathlib

/-!
Verification of the transaction-lifecycle reconciliation engine of a
payments backend (Cloudflare Workers / Hono / Supabase / zkSync).

The development shallowly embeds the relevant source functions:

* `parseTransactionDetails`   — src/services/webhook-transaction-processor
  (`TransactionProcessor.parseTransactionDetails`)
* `getProfileFromAddress`, `processTransaction` — same class
* `isValidSignatureForStringBody`, the webhook auth middleware and the
  `/webhooks/alchemy-transaction` route — src/middleware/webhook-auth and
  src/routes/webhooks
* `sendPushNotifications` — NotificationService
* the fulfill / decline / cancel payment-request handlers —
  src/routes/transactions

External collaborators (the chain RPC provider, the crypto library, JSON
parsing, number formatting, address checksumming, the Expo push gateway and
the generated row ids) are modelled as explicit environments of oracles;
the relational store is modelled as in-memory lists of rows, reliable
(its error channels never fire).  Money amounts (JS numbers) are modelled
as rationals.  The structured `data` payload of push notifications is not
modelled; a notification event records recipients, title and body.
-/

/-- zkSync bootloader formal address (`utils.BOOTLOADER_FORMAL_ADDRESS`). -/
def BOOTLOADER_FORMAL_ADDRESS : String := "0x0000000000000000000000000000000000008001"

/-- One chain-activity record of an Alchemy webhook batch
(`TransactionActivity` in the source). -/
structure TransactionActivity where
  category : String
  asset : String
  fromAddress : String
  toAddress : String
  value : ℚ
  hash : String
deriving Repr, DecidableEq

/-- Parsed result of a webhook batch (`TransactionDetails` in the source). -/
structure TransactionDetails where
  mainTransfer : Option TransactionActivity
  totalFees : ℚ
deriving Repr, DecidableEq

/-- The main-transfer selection predicate of `parseTransactionDetails`:
not the generic external tag, not the native asset, and neither endpoint
is the bootloader address. -/
def isMainTransfer (a : TransactionActivity) : Bool :=
  a.category != "external" && a.asset != "ETH" &&
  a.fromAddress != BOOTLOADER_FORMAL_ADDRESS &&
  a.toAddress != BOOTLOADER_FORMAL_ADDRESS

/-- One step of the fee loop: add the value when the destination is the
bootloader, otherwise subtract it when the source is the bootloader. -/
def feeStep (acc : ℚ) (a : TransactionActivity) : ℚ :=
  if a.toAddress = BOOTLOADER_FORMAL_ADDRESS then acc + a.value
  else if a.fromAddress = BOOTLOADER_FORMAL_ADDRESS then acc - a.value
  else acc

/-- `TransactionProcessor.parseTransactionDetails`: pick the first
qualifying token transfer, then fold the fee computation over the
native-asset (`"ETH"`) records of the batch. -/
def parseTransactionDetails (activities : List TransactionActivity) : TransactionDetails :=
  if activities.isEmpty then ⟨none, 0⟩
  else
    match activities.find? isMainTransfer with
    | none => ⟨none, 0⟩
    | some mt =>
      ⟨some mt, (activities.filter (fun a => a.asset == "ETH")).foldl feeStep 0⟩

/-- Modelled from the spec sentence of C5 (refinement side): the sum of
`value` over native-asset records whose destination is the bootloader
address minus the sum over those whose source is that address. -/
def specTotalFees (activities : List TransactionActivity) : ℚ :=
  ((activities.filter
      (fun a => a.asset == "ETH" && a.toAddress == BOOTLOADER_FORMAL_ADDRESS)).map
      (fun a => a.value)).sum -
  ((activities.filter
      (fun a => a.asset == "ETH" && a.fromAddress == BOOTLOADER_FORMAL_ADDRESS)).map
      (fun a => a.value)).sum

/-- Closed form actually computed by the fee loop: value counted positively
when the destination is the bootloader, negatively when (only) the source
is. -/
def codeTotalFees (activities : List TransactionActivity) : ℚ :=
  ((activities.filter
      (fun a => a.asset == "ETH" && a.toAddress == BOOTLOADER_FORMAL_ADDRESS)).map
      (fun a => a.value)).sum -
  ((activities.filter
      (fun a => a.asset == "ETH" && a.fromAddress == BOOTLOADER_FORMAL_ADDRESS &&
                a.toAddress != BOOTLOADER_FORMAL_ADDRESS)).map
      (fun a => a.value)).sum

lemma feeStep_foldl_add (l : List TransactionActivity) (x : ℚ) :
    l.foldl feeStep x = x + l.foldl feeStep 0 := by
  induction l generalizing x with
  | nil => simp
  | cons a l ih =>
    simp only [List.foldl_cons]
    rw [ih, ih (feeStep 0 a)]
    simp [feeStep]
    split <;> [ring; skip]
    split <;> ring

lemma foldl_feeStep_eq_codeTotalFees (l : List TransactionActivity) :
    (l.filter (fun a => a.asset == "ETH")).foldl feeStep 0 = codeTotalFees l := by
  induction l with
  | nil => simp [codeTotalFees]
  | cons a l ih =>
    by_cases hE : a.asset = "ETH"
    · rw [List.filter_cons_of_pos (by simp [hE]), List.foldl_cons,
        feeStep_foldl_add, ih]
      simp only [codeTotalFees, List.filter_cons]
      by_cases hT : a.toAddress = BOOTLOADER_FORMAL_ADDRESS
      · simp [hE, hT, feeStep, bne]
        try ring
      · by_cases hF : a.fromAddress = BOOTLOADER_FORMAL_ADDRESS
        · simp [hE, hT, hF, feeStep, bne]
          try ring
        · simp [hE, hT, hF, feeStep, bne]
          try ring
    · rw [List.filter_cons_of_neg (by simp [hE]), ih]
      simp only [codeTotalFees, List.filter_cons]
      simp [hE]

/-- When a main transfer was selected, the fee loop computes `codeTotalFees`. -/
theorem parseTransactionDetails_totalFees_eq (activities : List TransactionActivity)
    (h : (parseTransactionDetails activities).mainTransfer.isSome = true) :
    (parseTransactionDetails activities).totalFees = codeTotalFees activities := by
  by_cases he : activities.isEmpty = true
  · unfold parseTransactionDetails at h
    rw [if_pos he] at h
    simp at h
  · unfold parseTransactionDetails at h ⊢
    rw [if_neg he] at h ⊢
    cases hf : activities.find? isMainTransfer with
    | none => rw [hf] at h; simp at h
    | some mt =>
      simpa using foldl_feeStep_eq_codeTotalFees activities

/-- A qualifying USDC transfer record used in concrete batches. -/
def usdcRecord : TransactionActivity :=
  { category := "token", asset := "USDC", fromAddress := "0xaaa1", toAddress := "0xbbb2",
    value := 25, hash := "0xabc" }

/-- A native-asset record whose source and destination are both the
bootloader address. -/
def sysToSysEth : TransactionActivity :=
  { category := "external", asset := "ETH",
    fromAddress := BOOTLOADER_FORMAL_ADDRESS, toAddress := BOOTLOADER_FORMAL_ADDRESS,
    value := 3, hash := "0xabc" }

/-- C5 counterexample: on the batch `[usdcRecord, sysToSysEth]` the parser
selects a main transfer and computes totalFees = 3 (the else-if counts a
bootloader-to-bootloader record positively only), while the claim's
sum-minus-sum formula yields 0. -/
theorem parseTransactionDetails_claim_counterexample :
    (parseTransactionDetails [usdcRecord, sysToSysEth]).mainTransfer = some usdcRecord ∧
    (parseTransactionDetails [usdcRecord, sysToSysEth]).totalFees = 3 ∧
    specTotalFees [usdcRecord, sysToSysEth] = 0 ∧ (3 : ℚ) ≠ 0 := by
  refine ⟨rfl, ?_, ?_, by norm_num⟩
  · have h1 : (parseTransactionDetails [usdcRecord, sysToSysEth]).totalFees
        = (0 : ℚ) + 3 := rfl
    rw [h1]; norm_num
  · unfold specTotalFees
    rw [List.filter_cons_of_neg (by decide), List.filter_cons_of_pos (by decide),
      List.filter_cons_of_neg (by decide), List.filter_cons_of_pos (by decide)]
    simp

/-- C5 (amended): for every batch in which the parser selects a main
transfer, totalFees equals the sum of `value` over native-asset records
whose destination is the bootloader address minus the sum of `value` over
native-asset records whose source is the bootloader address and whose
destination is not; the result may be negative. -/
theorem parseTransactionDetails_totalFees_amended (activities : List TransactionActivity)
    (h : (parseTransactionDetails activities).mainTransfer.isSome = true) :
    (parseTransactionDetails activities).totalFees =
      ((activities.filter
          (fun a => a.asset == "ETH" && a.toAddress == BOOTLOADER_FORMAL_ADDRESS)).map
          (fun a => a.value)).sum -
      ((activities.filter
          (fun a => a.asset == "ETH" && a.fromAddress == BOOTLOADER_FORMAL_ADDRESS &&
                    a.toAddress != BOOTLOADER_FORMAL_ADDRESS)).map
          (fun a => a.value)).sum :=
  parseTransactionDetails_totalFees_eq activities h

/-- A fee record paying 10 to the bootloader. -/
def feePaidEth : TransactionActivity :=
  { category := "external", asset := "ETH", fromAddress := "0xaaa1",
    toAddress := BOOTLOADER_FORMAL_ADDRESS, value := 10, hash := "0xabc" }

/-- A refund record of 3 from the bootloader. -/
def refundEth : TransactionActivity :=
  { category := "external", asset := "ETH", fromAddress := BOOTLOADER_FORMAL_ADDRESS,
    toAddress := "0xaaa1", value := 3, hash := "0xabc" }

/-- Witness for the amended C5 theorem: on `[(to=SYS, 10), (from=SYS, 3)]`
plus a qualifying transfer the fee is 7; on a refund-only batch it is the
negative value -3. -/
theorem parseTransactionDetails_totalFees_amended_witness :
    ((parseTransactionDetails [usdcRecord, feePaidEth, refundEth]).totalFees =
        (([feePaidEth] : List TransactionActivity).map (fun a => a.value)).sum -
        (([refundEth] : List TransactionActivity).map (fun a => a.value)).sum ∧
      (parseTransactionDetails [usdcRecord, feePaidEth, refundEth]).totalFees = 7) ∧
    ((parseTransactionDetails [usdcRecord, refundEth]).totalFees < 0) := by
  have happ := parseTransactionDetails_totalFees_amended
    [usdcRecord, feePaidEth, refundEth] rfl
  refine ⟨⟨?_, ?_⟩, ?_⟩
  · rw [happ]
    rw [List.filter_cons_of_neg (by decide), List.filter_cons_of_pos (by decide),
      List.filter_cons_of_neg (by decide),
      List.filter_cons_of_neg (by decide), List.filter_cons_of_neg (by decide),
      List.filter_cons_of_pos (by decide)]
    rfl
  · have h1 : (parseTransactionDetails [usdcRecord, feePaidEth, refundEth]).totalFees
        = (0 : ℚ) + 10 - 3 := rfl
    rw [h1]; norm_num
  · have h2 : (parseTransactionDetails [usdcRecord, refundEth]).totalFees
        = (0 : ℚ) - 3 := rfl
    rw [h2]; norm_num

/-- A user profile row (`profiles` table), as used by the processor. -/
structure Profile where
  id : String
  username : String
deriving Repr, DecidableEq

/-- A `wallets` row: address, owning user and cached balances. -/
structure WalletRow where
  address : String
  owner_id : String
  eth_balance : String
  usdc_balance : String
deriving Repr, DecidableEq

/-- A `transactions` row. -/
structure TxRow where
  hash : String
  from_user_id : Option String
  to_user_id : Option String
  from_address : String
  to_address : String
  amount : ℚ
  asset : String
  fee : ℚ
  status : String
  method_id : Option Nat
  request_id : Option String
  updated_at : Option Nat
  created_at : Option Nat
deriving Repr, DecidableEq

/-- A `payment_requests` row. -/
structure PaymentRequestRow where
  id : String
  requester_id : String
  requestee_id : String
  status : String
  fulfilled_by : Option String
  updated_at : Option Nat
deriving Repr, DecidableEq

/-- The relational store, as in-memory tables. -/
structure Store where
  transactions : List TxRow
  wallets : List WalletRow
  profiles : List Profile
  payment_requests : List PaymentRequestRow
deriving Repr, DecidableEq

/-- Oracles for the external collaborators of the processor: address
checksumming (`ethers.getAddress`), chain balance reads
(`provider.getBalance`), number formatting (`ethers.formatEther`,
`ethers.formatUnits`, `toFixed`, template interpolation) and the clock. -/
structure ChainEnv where
  checksum : String → String
  balanceEthWei : String → Int
  balanceUsdcRaw : String → Int
  formatEther : Int → String
  formatUnits6 : Int → String
  toFixed0 : ℚ → String
  toFixed2 : ℚ → String
  showNum : ℚ → String
  now : Nat

/-- A dispatched push notification: recipients, title and body (the
structured `data` payload is not modelled). -/
structure NotificationEvent where
  userIds : List String
  title : String
  body : String
deriving Repr, DecidableEq

/-- A store mutation performed by the processor. -/
inductive StoreOp where
  | insertTx (row : TxRow)
  | updateTx (hash : String)
  | updateWallet (address : String)
deriving Repr, DecidableEq

/-- Result of one `processTransaction` invocation: the returned boolean,
the resulting store, the mutations performed and the notifications sent. -/
structure ProcResult where
  success : Bool
  store : Store
  ops : List StoreOp
  notifs : List NotificationEvent
deriving Repr, DecidableEq

/-- `TransactionProcessor.getProfileFromAddress`: checksum the address,
find the owning wallet row, then the linked profile; absence at either
stage is `none`. -/
def getProfileFromAddress (env : ChainEnv) (s : Store) (address : String) : Option Profile :=
  match s.wallets.find? (fun w => w.address == env.checksum address) with
  | none => none
  | some w => s.profiles.find? (fun p => p.id == w.owner_id)

/-- The row update of the existing-transaction path: set amount, status
`confirmed`, fee and `updated_at` on rows matching the hash. -/
def confirmTxRow (env : ChainEnv) (mt : TransactionActivity) (fees : ℚ) (t : TxRow) : TxRow :=
  if t.hash == mt.hash then
    { t with amount := mt.value, status := "confirmed", fee := fees,
             updated_at := some env.now }
  else t

/-- `supabase.from('transactions').update({...}).eq('hash', mt.hash)`. -/
def updateTransactionByHash (env : ChainEnv) (s : Store) (mt : TransactionActivity)
    (fees : ℚ) : Store :=
  { s with transactions := s.transactions.map (confirmTxRow env mt fees) }

/-- The wallet-cache refresh of one address: overwrite both cached
balances with freshly read chain balances. -/
def refreshWalletRow (env : ChainEnv) (address : String) (w : WalletRow) : WalletRow :=
  if w.address == env.checksum address then
    { w with eth_balance := env.formatEther (env.balanceEthWei address),
             usdc_balance := env.formatUnits6 (env.balanceUsdcRaw address) }
  else w

/-- `supabase.from('wallets').update({eth_balance, usdc_balance}).eq('address', ...)`. -/
def refreshWalletBalances (env : ChainEnv) (s : Store) (address : String) : Store :=
  { s with wallets := s.wallets.map (refreshWalletRow env address) }

/-- First 6 plus last 4 characters of an address (`slice(0, 6) + '...' + slice(-4)`). -/
def abbrevAddress (a : String) : String := a.take 6 ++ "..." ++ a.takeRight 4

/-- `value % 1 == 0 ? value.toFixed(0) : value.toFixed(2)`. -/
def fmtAmount (env : ChainEnv) (v : ℚ) : String :=
  if v.den = 1 then env.toFixed0 v else env.toFixed2 v

/-- `TransactionProcessor.processTransaction`: the reconciliation engine.
Mirrors the source branch for branch; the store is reliable, so the
source's store-error early returns never fire. -/
def processTransaction (env : ChainEnv) (s : Store) (td : TransactionDetails) : ProcResult :=
  match td.mainTransfer with
  | none => ⟨false, s, [], []⟩
  | some mt =>
    let fromUser := getProfileFromAddress env s mt.fromAddress
    let toUser := getProfileFromAddress env s mt.toAddress
    if fromUser.isNone && toUser.isNone then ⟨false, s, [], []⟩
    else
      match s.transactions.find? (fun t => t.hash == mt.hash) with
      | some existingTx =>
        let s1 := updateTransactionByHash env s mt td.totalFees
        match toUser with
        | some tu =>
          let senderName :=
            match fromUser with
            | some fu =>
              if fu.username == "" then abbrevAddress mt.fromAddress else fu.username
            | none => abbrevAddress mt.fromAddress
          let title :=
            if existingTx.request_id.isSome then "Payment Fulfilled" else "Payment Received"
          let body :=
            if existingTx.request_id.isSome then
              senderName ++ " fulfilled your request of $" ++ fmtAmount env mt.value
            else
              senderName ++ " sent you a payment of $" ++ fmtAmount env mt.value
          let s2 := refreshWalletBalances env s1 mt.fromAddress
          let s3 := refreshWalletBalances env s2 mt.toAddress
          ⟨true, s3,
            [StoreOp.updateTx mt.hash, StoreOp.updateWallet (env.checksum mt.fromAddress),
             StoreOp.updateWallet (env.checksum mt.toAddress)],
            [⟨[tu.id], title, body⟩]⟩
        | none =>
          match fromUser with
          | some _ =>
            let s2 := refreshWalletBalances env s1 mt.fromAddress
            ⟨true, s2,
              [StoreOp.updateTx mt.hash, StoreOp.updateWallet (env.checksum mt.fromAddress)],
              []⟩
          | none => ⟨true, s1, [StoreOp.updateTx mt.hash], []⟩
      | none =>
        match toUser with
        | some tu =>
          let row : TxRow :=
            { hash := mt.hash, from_user_id := none, to_user_id := some tu.id,
              from_address := env.checksum mt.fromAddress,
              to_address := env.checksum mt.toAddress,
              amount := mt.value, asset := mt.asset, fee := td.totalFees,
              status := "confirmed", method_id := some 5, request_id := none,
              updated_at := none, created_at := none }
          let s1 := { s with transactions := s.transactions ++ [row] }
          let s2 := refreshWalletBalances env s1 mt.toAddress
          let body := "You received " ++ env.showNum mt.value ++ " " ++ mt.asset ++
            " from " ++ abbrevAddress mt.fromAddress
          ⟨true, s2,
            [StoreOp.insertTx row, StoreOp.updateWallet (env.checksum mt.toAddress)],
            [⟨[tu.id], "Payment Received", body⟩]⟩
        | none => ⟨true, s, [], []⟩

lemma find?_map_pres {α : Type} (f : α → α) (p : α → Bool) (l : List α)
    (hp : ∀ a, p (f a) = p a) :
    (l.map f).find? p = (l.find? p).map f := by
  induction l with
  | nil => rfl
  | cons a l ih =>
    cases h : p a with
    | false =>
      have hfa : ¬ p (f a) = true := by rw [hp a, h]; exact Bool.false_ne_true
      have ha : ¬ p a = true := by rw [h]; exact Bool.false_ne_true
      rw [List.map_cons, List.find?_cons_of_neg _ hfa, List.find?_cons_of_neg _ ha, ih]
    | true =>
      have hfa : p (f a) = true := by rw [hp a, h]
      rw [List.map_cons, List.find?_cons_of_pos _ hfa, List.find?_cons_of_pos _ h]
      rfl

lemma confirmTxRow_hash (env : ChainEnv) (mt : TransactionActivity) (fees : ℚ)
    (t : TxRow) : (confirmTxRow env mt fees t).hash = t.hash := by
  unfold confirmTxRow; split <;> rfl

lemma find?_map_confirm (env : ChainEnv) (mt : TransactionActivity) (fees : ℚ)
    (l : List TxRow) :
    ((l.map (confirmTxRow env mt fees)).find? (fun t => t.hash == mt.hash))
      = (l.find? (fun t => t.hash == mt.hash)).map (confirmTxRow env mt fees) :=
  find?_map_pres _ _ _ (fun t => by simp only [confirmTxRow_hash])

lemma refreshWalletRow_address (env : ChainEnv) (address : String) (w : WalletRow) :
    (refreshWalletRow env address w).address = w.address := by
  unfold refreshWalletRow; split <;> rfl

lemma refreshWalletRow_owner (env : ChainEnv) (address : String) (w : WalletRow) :
    (refreshWalletRow env address w).owner_id = w.owner_id := by
  unfold refreshWalletRow; split <;> rfl

lemma getProfileFromAddress_refresh (env : ChainEnv) (s : Store) (address b : String) :
    getProfileFromAddress env (refreshWalletBalances env s address) b
      = getProfileFromAddress env s b := by
  unfold getProfileFromAddress refreshWalletBalances
  rw [show ({ s with wallets := s.wallets.map (refreshWalletRow env address) } : Store).wallets
      = s.wallets.map (refreshWalletRow env address) from rfl]
  rw [find?_map_pres (refreshWalletRow env address)
    (fun w => w.address == env.checksum b) s.wallets
    (fun w => by simp only [refreshWalletRow_address])]
  cases hw : s.wallets.find? (fun w => w.address == env.checksum b) with
  | none => rfl
  | some w =>
    show ({ s with wallets := _ } : Store).profiles.find?
        (fun p => p.id == (refreshWalletRow env address w).owner_id)
      = s.profiles.find? (fun p => p.id == w.owner_id)
    rw [refreshWalletRow_owner]

lemma getProfileFromAddress_updateTx (env : ChainEnv) (s : Store)
    (mt : TransactionActivity) (fees : ℚ) (b : String) :
    getProfileFromAddress env (updateTransactionByHash env s mt fees) b
      = getProfileFromAddress env s b := rfl

/-- `processTransaction` never changes the result of identity resolution:
profiles are untouched and wallet refreshes keep address and owner. -/
lemma getProfile_processTransaction (env : ChainEnv) (s : Store)
    (td : TransactionDetails) (b : String) :
    getProfileFromAddress env (processTransaction env s td).store b
      = getProfileFromAddress env s b := by
  unfold processTransaction
  cases hmt : td.mainTransfer with
  | none => rfl
  | some mt =>
    cases hg : ((getProfileFromAddress env s mt.fromAddress).isNone &&
        (getProfileFromAddress env s mt.toAddress).isNone) with
    | true => simp only [hg, if_true]
    | false =>
      simp only [hg, Bool.false_eq_true, if_false]
      cases hfind : s.transactions.find? (fun t => t.hash == mt.hash) with
      | some ex =>
        cases hto : getProfileFromAddress env s mt.toAddress with
        | some tu =>
          simp only
          rw [getProfileFromAddress_refresh, getProfileFromAddress_refresh,
            getProfileFromAddress_updateTx]
        | none =>
          cases hfrom : getProfileFromAddress env s mt.fromAddress with
          | some fu =>
            simp only
            rw [getProfileFromAddress_refresh, getProfileFromAddress_updateTx]
          | none => simp only; rw [getProfileFromAddress_updateTx]
      | none =>
        cases hto : getProfileFromAddress env s mt.toAddress with
        | some tu =>
          simp only
          rw [getProfileFromAddress_refresh]
          rfl
        | none => rfl

/-- C3: with no main transfer, or when neither endpoint resolves to a
known user, `processTransaction` returns false, leaves the store
untouched, performs no store mutation and sends no notification. -/
theorem processTransaction_noop (env : ChainEnv) (s : Store) (td : TransactionDetails)
    (h : td.mainTransfer = none ∨
      ∃ mt, td.mainTransfer = some mt ∧
        getProfileFromAddress env s mt.fromAddress = none ∧
        getProfileFromAddress env s mt.toAddress = none) :
    processTransaction env s td = ⟨false, s, [], []⟩ := by
  rcases h with h | ⟨mt, hmt, hf, ht⟩
  · unfold processTransaction; rw [h]
  · unfold processTransaction; rw [hmt]
    simp only [hf, ht, Option.isNone_none, Bool.and_self, if_true]

/-- C9: sender known, recipient unknown, no row with the hash: the engine
returns true while writing nothing and notifying nobody. -/
theorem processTransaction_sender_only_new (env : ChainEnv) (s : Store)
    (td : TransactionDetails) (mt : TransactionActivity) (fu : Profile)
    (hmt : td.mainTransfer = some mt)
    (hfrom : getProfileFromAddress env s mt.fromAddress = some fu)
    (hto : getProfileFromAddress env s mt.toAddress = none)
    (hnone : s.transactions.find? (fun t => t.hash == mt.hash) = none) :
    processTransaction env s td = ⟨true, s, [], []⟩ := by
  unfold processTransaction
  rw [hmt]
  simp only [hfrom, hto, hnone, Option.isNone_some, Option.isNone_none,
    Bool.false_and, Bool.false_eq_true, if_false]

/-- The row inserted by the new-transaction path: only `to_user_id` is set,
status `confirmed`, fixed `method_id` 5. -/
def insertedRow (env : ChainEnv) (td : TransactionDetails) (mt : TransactionActivity)
    (tu : Profile) : TxRow :=
  { hash := mt.hash, from_user_id := none, to_user_id := some tu.id,
    from_address := env.checksum mt.fromAddress, to_address := env.checksum mt.toAddress,
    amount := mt.value, asset := mt.asset, fee := td.totalFees, status := "confirmed",
    method_id := some 5, request_id := none, updated_at := none, created_at := none }

lemma processTransaction_insert_eq (env : ChainEnv) (s : Store)
    (td : TransactionDetails) (mt : TransactionActivity) (tu : Profile)
    (hmt : td.mainTransfer = some mt)
    (hnone : s.transactions.find? (fun t => t.hash == mt.hash) = none)
    (hto : getProfileFromAddress env s mt.toAddress = some tu) :
    processTransaction env s td =
      ⟨true,
        refreshWalletBalances env
          { s with transactions := s.transactions ++ [insertedRow env td mt tu] }
          mt.toAddress,
        [StoreOp.insertTx (insertedRow env td mt tu),
         StoreOp.updateWallet (env.checksum mt.toAddress)],
        [⟨[tu.id], "Payment Received",
          "You received " ++ env.showNum mt.value ++ " " ++ mt.asset ++ " from "
            ++ abbrevAddress mt.fromAddress⟩]⟩ := by
  unfold processTransaction
  rw [hmt]
  simp only [hto, hnone, Option.isNone_some, Bool.and_false, Bool.false_eq_true, if_false]
  rfl

/-- C2: first-seen transfer to a known user: the engine appends exactly one
`confirmed` Transaction row, performs exactly one wallet refresh (the
recipient address) and sends one Payment Received notification whose body
shows the sender as the first 6 plus last 4 characters of the sender
address. -/
theorem processTransaction_new_path (env : ChainEnv) (s : Store)
    (td : TransactionDetails) (mt : TransactionActivity) (tu : Profile)
    (hmt : td.mainTransfer = some mt)
    (hnone : s.transactions.find? (fun t => t.hash == mt.hash) = none)
    (hto : getProfileFromAddress env s mt.toAddress = some tu) :
    (processTransaction env s td).store.transactions
        = s.transactions ++ [insertedRow env td mt tu] ∧
    (insertedRow env td mt tu).status = "confirmed" ∧
    (processTransaction env s td).ops =
      [StoreOp.insertTx (insertedRow env td mt tu),
       StoreOp.updateWallet (env.checksum mt.toAddress)] ∧
    (processTransaction env s td).store.wallets
        = s.wallets.map (refreshWalletRow env mt.toAddress) ∧
    (processTransaction env s td).notifs =
      [⟨[tu.id], "Payment Received",
        "You received " ++ env.showNum mt.value ++ " " ++ mt.asset ++ " from "
          ++ (mt.fromAddress.take 6 ++ "..." ++ mt.fromAddress.takeRight 4)⟩] := by
  have hmain := processTransaction_insert_eq env s td mt tu hmt hnone hto
  refine ⟨?_, rfl, ?_, ?_, ?_⟩ <;> rw [hmain] <;> rfl

/-- C10 (amended): on the insert path the new row carries no sender user
id (only `to_user_id`, `method_id` 5), and the only wallet refresh targets
the recipient address; whenever the checksummed sender address differs
from the checksummed recipient address, no mutation touches the sender's
wallet — even if the sender resolves to a known profile. -/
theorem processTransaction_insert_frame (env : ChainEnv) (s : Store)
    (td : TransactionDetails) (mt : TransactionActivity) (tu : Profile)
    (hmt : td.mainTransfer = some mt)
    (hnone : s.transactions.find? (fun t => t.hash == mt.hash) = none)
    (hto : getProfileFromAddress env s mt.toAddress = some tu) :
    (insertedRow env td mt tu).from_user_id = none ∧
    (insertedRow env td mt tu).to_user_id = some tu.id ∧
    (insertedRow env td mt tu).method_id = some 5 ∧
    (processTransaction env s td).ops =
      [StoreOp.insertTx (insertedRow env td mt tu),
       StoreOp.updateWallet (env.checksum mt.toAddress)] ∧
    (env.checksum mt.fromAddress ≠ env.checksum mt.toAddress →
      ∀ op ∈ (processTransaction env s td).ops,
        op ≠ StoreOp.updateWallet (env.checksum mt.fromAddress)) := by
  have hmain := processTransaction_insert_eq env s td mt tu hmt hnone hto
  refine ⟨rfl, rfl, rfl, by rw [hmain], ?_⟩
  intro hne op hop
  rw [hmain] at hop
  simp only [List.mem_cons, List.not_mem_nil, or_false] at hop
  rcases hop with h | h
  · subst h; intro hcon; cases hcon
  · subst h
    intro hcon
    injection hcon with h2
    exact hne h2.symm

/-- Trivial oracle environment used by concrete witnesses: identity
checksumming, constant balances and formatting. -/
def envW : ChainEnv :=
  { checksum := fun a => a, balanceEthWei := fun _ => 0, balanceUsdcRaw := fun _ => 0,
    formatEther := fun _ => "0.0", formatUnits6 := fun _ => "0.0",
    toFixed0 := fun _ => "0", toFixed2 := fun _ => "0.00",
    showNum := fun _ => "0", now := 0 }

/-- A transfer whose sender and recipient addresses coincide. -/
def selfTransfer : TransactionActivity :=
  { category := "token", asset := "USDC", fromAddress := "0xSelf",
    toAddress := "0xSelf", value := 5, hash := "0xdead" }

/-- A store owning the self-transfer address. -/
def storeSelf : Store :=
  { transactions := [],
    wallets := [{ address := "0xSelf", owner_id := "u1", eth_balance := "1",
                  usdc_balance := "2" }],
    profiles := [{ id := "u1", username := "alice" }],
    payment_requests := [] }

/-- C10 counterexample: a first-seen self-transfer (sender address equal
to recipient address) whose sender resolves to a known profile; the insert
path refreshes the wallet at the sender address, so the sender's wallet
cache is refreshed, contradicting the claim. -/
theorem processTransaction_c10_counterexample :
    selfTransfer.fromAddress = selfTransfer.toAddress ∧
    (getProfileFromAddress envW storeSelf selfTransfer.fromAddress).isSome = true ∧
    storeSelf.transactions.find? (fun t => t.hash == selfTransfer.hash) = none ∧
    (processTransaction envW storeSelf ⟨some selfTransfer, 0⟩).ops =
      [StoreOp.insertTx
        (insertedRow envW ⟨some selfTransfer, 0⟩ selfTransfer { id := "u1", username := "alice" }),
       StoreOp.updateWallet (envW.checksum selfTransfer.fromAddress)] ∧
    (processTransaction envW storeSelf ⟨some selfTransfer, 0⟩).store.wallets ≠
      storeSelf.wallets := by
  refine ⟨rfl, rfl, rfl, rfl, ?_⟩
  decide

lemma processTransaction_update_store (env : ChainEnv) (s : Store)
    (td : TransactionDetails) (mt : TransactionActivity)
    (hmt : td.mainTransfer = some mt)
    (hex : (s.transactions.find? (fun t => t.hash == mt.hash)).isSome = true)
    (hknown : (getProfileFromAddress env s mt.fromAddress).isSome = true ∨
              (getProfileFromAddress env s mt.toAddress).isSome = true) :
    (processTransaction env s td).store.transactions
      = s.transactions.map (confirmTxRow env mt td.totalFees) := by
  unfold processTransaction
  rw [hmt]
  cases hfrom : getProfileFromAddress env s mt.fromAddress with
  | some fu =>
    simp only [hfrom, Option.isNone_some, Bool.false_and, Bool.false_eq_true, if_false]
    cases hfind : s.transactions.find? (fun t => t.hash == mt.hash) with
    | none => rw [hfind] at hex; simp at hex
    | some ex =>
      cases hto : getProfileFromAddress env s mt.toAddress with
      | some tu => rfl
      | none => rfl
  | none =>
    cases hto : getProfileFromAddress env s mt.toAddress with
    | none =>
      rw [hfrom, hto] at hknown
      simp at hknown
    | some tu =>
      simp only [hfrom, hto, Option.isNone_none, Option.isNone_some, Bool.true_and,
        Bool.false_eq_true, if_false]
      cases hfind : s.transactions.find? (fun t => t.hash == mt.hash) with
      | none => rw [hfind] at hex; simp at hex
      | some ex => rfl

/-- C1: when the transfer hash matches an existing row and at least one
endpoint resolves to a known user, running the engine once, and running it
twice, both leave the matched row in the same terminal state: status
`confirmed`, amount the transfer value, fee the parsed totalFees. -/
theorem processTransaction_update_idempotent (env : ChainEnv) (s : Store)
    (td : TransactionDetails) (mt : TransactionActivity) (ex : TxRow)
    (hmt : td.mainTransfer = some mt)
    (hex : s.transactions.find? (fun t => t.hash == mt.hash) = some ex)
    (hknown : (getProfileFromAddress env s mt.fromAddress).isSome = true ∨
              (getProfileFromAddress env s mt.toAddress).isSome = true) :
    (((processTransaction env s td).store.transactions.find?
        (fun t => t.hash == mt.hash)).map (fun t => (t.status, t.amount, t.fee))
      = some ("confirmed", mt.value, td.totalFees)) ∧
    (((processTransaction env (processTransaction env s td).store td).store.transactions.find?
        (fun t => t.hash == mt.hash)).map (fun t => (t.status, t.amount, t.fee))
      = some ("confirmed", mt.value, td.totalFees)) := by
  have hpex : (ex.hash == mt.hash) = true := by
    simpa using List.find?_some hex
  have h1 := processTransaction_update_store env s td mt hmt (by rw [hex]; rfl) hknown
  have hfind1 : (processTransaction env s td).store.transactions.find?
      (fun t => t.hash == mt.hash) = some (confirmTxRow env mt td.totalFees ex) := by
    rw [h1, find?_map_confirm, hex]
    rfl
  have hknown1 : (getProfileFromAddress env (processTransaction env s td).store
        mt.fromAddress).isSome = true ∨
      (getProfileFromAddress env (processTransaction env s td).store
        mt.toAddress).isSome = true := by
    cases hknown with
    | inl h => exact Or.inl (by rw [getProfile_processTransaction]; exact h)
    | inr h => exact Or.inr (by rw [getProfile_processTransaction]; exact h)
  have h2 := processTransaction_update_store env (processTransaction env s td).store td mt
    hmt (by rw [hfind1]; rfl) hknown1
  have hpex2 : ((confirmTxRow env mt td.totalFees ex).hash == mt.hash) = true := by
    rw [confirmTxRow_hash]; exact hpex
  constructor
  · rw [hfind1]
    simp [confirmTxRow, hpex]
  · rw [h2, find?_map_confirm, hfind1]
    simp [confirmTxRow, hpex, hpex2]

/-- An inbound transfer from an external address to the known user bob. -/
def knownTransfer : TransactionActivity :=
  { category := "token", asset := "USDC", fromAddress := "0xExt",
    toAddress := "0xBob", value := 25, hash := "0xh1" }

/-- A transfer between two addresses unknown to the store. -/
def strangerTransfer : TransactionActivity :=
  { category := "token", asset := "USDC", fromAddress := "0xNo1",
    toAddress := "0xNo2", value := 4, hash := "0xh3" }

/-- An outbound transfer from bob to an external address. -/
def outboundTransfer : TransactionActivity :=
  { category := "token", asset := "USDC", fromAddress := "0xBob",
    toAddress := "0xNo2", value := 7, hash := "0xh9" }

/-- A store knowing only the user bob and his wallet. -/
def storeBob : Store :=
  { transactions := [],
    wallets := [{ address := "0xBob", owner_id := "bob", eth_balance := "1",
                  usdc_balance := "2" }],
    profiles := [{ id := "bob", username := "bobby" }],
    payment_requests := [] }

/-- Witness for C2: concrete first-seen inbound transfer to bob. -/
theorem processTransaction_new_path_witness :
    (processTransaction envW storeBob ⟨some knownTransfer, 1⟩).store.transactions =
      [insertedRow envW ⟨some knownTransfer, 1⟩ knownTransfer
        { id := "bob", username := "bobby" }] ∧
    (processTransaction envW storeBob ⟨some knownTransfer, 1⟩).notifs =
      [⟨["bob"], "Payment Received", "You received 0 USDC from 0xExt...xExt"⟩] := by
  have h := processTransaction_new_path envW storeBob ⟨some knownTransfer, 1⟩
    knownTransfer { id := "bob", username := "bobby" } rfl rfl rfl
  refine ⟨?_, ?_⟩
  · rw [h.1]; rfl
  · rw [h.2.2.2.2]; decide

/-- Witness for C3: a batch with no main transfer, and a transfer neither
endpoint of which is known, both leave the store untouched. -/
theorem processTransaction_noop_witness :
    processTransaction envW storeBob ⟨none, 0⟩ = ⟨false, storeBob, [], []⟩ ∧
    processTransaction envW storeBob ⟨some strangerTransfer, 0⟩ =
      ⟨false, storeBob, [], []⟩ :=
  ⟨processTransaction_noop envW storeBob ⟨none, 0⟩ (Or.inl rfl),
   processTransaction_noop envW storeBob ⟨some strangerTransfer, 0⟩
     (Or.inr ⟨strangerTransfer, rfl, rfl, rfl⟩)⟩

/-- Witness for C9: bob pays an unknown address, hash unseen. -/
theorem processTransaction_sender_only_new_witness :
    processTransaction envW storeBob ⟨some outboundTransfer, 0⟩ =
      ⟨true, storeBob, [], []⟩ :=
  processTransaction_sender_only_new envW storeBob ⟨some outboundTransfer, 0⟩
    outboundTransfer { id := "bob", username := "bobby" } rfl rfl rfl rfl

/-- Witness for C10 (amended): on a first-seen inbound transfer with
distinct endpoints the single wallet refresh targets the recipient, never
the sender. -/
theorem processTransaction_insert_frame_witness :
    (processTransaction envW storeBob ⟨some knownTransfer, 1⟩).ops =
      [StoreOp.insertTx (insertedRow envW ⟨some knownTransfer, 1⟩ knownTransfer
        { id := "bob", username := "bobby" }),
       StoreOp.updateWallet "0xBob"] ∧
    (∀ op ∈ (processTransaction envW storeBob ⟨some knownTransfer, 1⟩).ops,
      op ≠ StoreOp.updateWallet "0xExt") := by
  have h := processTransaction_insert_frame envW storeBob ⟨some knownTransfer, 1⟩
    knownTransfer { id := "bob", username := "bobby" } rfl rfl rfl
  exact ⟨h.2.2.2.1, h.2.2.2.2 (by decide)⟩

/-- A pre-registered pending row for bob's broadcast of hash 0xh9. -/
def pendingRow : TxRow :=
  { hash := "0xh9", from_user_id := some "bob", to_user_id := none,
    from_address := "0xBob", to_address := "0xNo2", amount := 7, asset := "USDC",
    fee := 0, status := "pending", method_id := some 1, request_id := none,
    updated_at := none, created_at := none }

/-- storeBob plus the pending row. -/
def storePending : Store :=
  { transactions := [pendingRow],
    wallets := storeBob.wallets,
    profiles := storeBob.profiles,
    payment_requests := [] }

/-- The parsed transfer matching the pending row. -/
def tdU : TransactionDetails := ⟨some outboundTransfer, 2⟩

/-- Witness for C1: reconciling bob's pre-registered transfer once and
twice ends in the same confirmed row state. -/
theorem processTransaction_update_idempotent_witness :
    (((processTransaction envW storePending tdU).store.transactions.find?
        (fun t => t.hash == outboundTransfer.hash)).map
        (fun t => (t.status, t.amount, t.fee)) = some ("confirmed", 7, 2)) ∧
    (((processTransaction envW (processTransaction envW storePending tdU).store
        tdU).store.transactions.find? (fun t => t.hash == outboundTransfer.hash)).map
        (fun t => (t.status, t.amount, t.fee)) = some ("confirmed", 7, 2)) :=
  processTransaction_update_idempotent envW storePending tdU outboundTransfer
    pendingRow rfl rfl (Or.inl rfl)

/-- `isValidSignatureForStringBody` (src/middleware/webhook-auth): compute
the HMAC-SHA-256 hex digest of the body under the signing key and compare
for exact equality; any throw of the crypto library (modelled as the
oracle returning an error) is caught and yields false.  The oracle
`hmac body key` stands for
`crypto.createHmac('sha256', key).update(body, 'utf8').digest('hex')`. -/
def isValidSignatureForStringBody (hmac : String → String → Except String String)
    (body signature signingKey : String) : Bool :=
  match hmac body signingKey with
  | Except.ok digest => signature == digest
  | Except.error _ => false

/-- C6: the verifier returns true exactly when the crypto call succeeds
and the supplied signature equals the computed digest; any other
signature, or an internal crypto failure, yields false, and the function
always returns a boolean. -/
theorem isValidSignatureForStringBody_spec
    (hmac : String → String → Except String String) (body signature signingKey : String) :
    isValidSignatureForStringBody hmac body signature signingKey = true ↔
      hmac body signingKey = Except.ok signature := by
  unfold isValidSignatureForStringBody
  cases h : hmac body signingKey with
  | ok digest =>
    simp only [beq_iff_eq, Except.ok.injEq]
    exact eq_comm
  | error e => simp

/-- JS falsiness of an optional string (missing or empty). -/
def strFalsy : Option String → Bool
  | none => true
  | some s => s == ""

/-- The fields of the parsed JSON body that the route reads:
`payload.event.activity` when it is a valid array, else `none`. -/
structure ParsedBody where
  activity : Option (List TransactionActivity)
deriving Repr, DecidableEq

/-- A webhook request: raw body and the `X-Alchemy-Signature` header. -/
structure WebhookRequest where
  body : String
  signature : Option String
deriving Repr, DecidableEq

/-- Environment of the webhook endpoint: JSON parsing (`none` models a
`JSON.parse` throw), the configured signing key, the crypto oracle and the
processor's own environment and store. -/
structure WebhookEnv where
  parseJson : String → Option ParsedBody
  signingKey : Option String
  hmac : String → String → Except String String
  chain : ChainEnv
  store : Store

/-- An HTTP JSON response of the webhook route. -/
structure HttpResponse where
  status : Nat
  message : Option String
  success : Option Bool
  error : Option String
deriving Repr, DecidableEq

/-- POST /webhooks/alchemy-transaction: the auth middleware
(`createWebhookAuthMiddleware` applied to the Alchemy header and key)
composed with the route handler of `registerWebhookRoutes`. -/
def alchemyTransactionWebhook (env : WebhookEnv) (req : WebhookRequest) :
    HttpResponse × Store :=
  if req.body == "" then
    ({ status := 400, message := none, success := none,
       error := some "Empty request body" }, env.store)
  else
    match env.parseJson req.body with
    | none =>
      ({ status := 400, message := none, success := none,
         error := some "Invalid JSON body" }, env.store)
    | some payload =>
      if strFalsy req.signature || strFalsy env.signingKey then
        ({ status := 200, message := some "Webhook processed", success := none,
           error := none }, env.store)
      else if !(isValidSignatureForStringBody env.hmac req.body
          (req.signature.getD "") (env.signingKey.getD "")) then
        ({ status := 200, message := some "Webhook processed", success := none,
           error := none }, env.store)
      else
        match payload.activity with
        | none =>
          ({ status := 200, message := some "Webhook processed", success := none,
             error := none }, env.store)
        | some acts =>
          let r := processTransaction env.chain env.store (parseTransactionDetails acts)
          ({ status := 200, message := some "Webhook processed successfully",
             success := some r.success, error := none }, r.store)

/-- A webhook environment for concrete runs. -/
def webhookEnvW : WebhookEnv :=
  { parseJson := fun _ => some { activity := none }, signingKey := none,
    hmac := fun _ _ => Except.error "bad key", chain := envW, store := storeBob }

/-- C4 counterexample: a request with an empty body is answered with HTTP
400, not 200. -/
theorem alchemyTransactionWebhook_counterexample :
    (alchemyTransactionWebhook webhookEnvW { body := "", signature := none }).1.status
      = 400 ∧ (400 : Nat) ≠ 200 :=
  ⟨rfl, by decide⟩

/-- C4 (amended): for every request whose body is non-empty and parses as
JSON, the response is HTTP 200 and carries a message (with optional
success or error detail), regardless of signature validity or processing
outcome; an empty or non-JSON body is rejected with 400 and an error
payload. -/
theorem alchemyTransactionWebhook_200 (env : WebhookEnv) (req : WebhookRequest)
    (payload : ParsedBody)
    (hb : req.body ≠ "")
    (hp : env.parseJson req.body = some payload) :
    (alchemyTransactionWebhook env req).1.status = 200 ∧
    (alchemyTransactionWebhook env req).1.message.isSome = true := by
  have hb' : (req.body == "") = false := by simp [hb]
  unfold alchemyTransactionWebhook
  simp only [hb', Bool.false_eq_true, if_false, hp]
  split
  · exact ⟨rfl, rfl⟩
  · split
    · exact ⟨rfl, rfl⟩
    · cases payload.activity <;> exact ⟨rfl, rfl⟩

/-- Witness for the amended C4 theorem: a concrete non-empty JSON request
(missing signature) is acknowledged with 200 and a message. -/
theorem alchemyTransactionWebhook_200_witness :
    (alchemyTransactionWebhook webhookEnvW { body := "x", signature := none }).1.status
        = 200 ∧
    (alchemyTransactionWebhook webhookEnvW
        { body := "x", signature := none }).1.message.isSome = true :=
  alchemyTransactionWebhook_200 webhookEnvW { body := "x", signature := none }
    { activity := none } (by decide) rfl

/-- A push message built for the Expo gateway (`to`, title, body; the
sound and data fields carry no logic). -/
structure PushMsg where
  dest : String
  title : String
  body : String
deriving Repr, DecidableEq

/-- One Expo delivery ticket: its status and, on error, the error
classification from `ticket.details.error`. -/
structure PushTicket where
  status : String
  errorDetail : Option String
deriving Repr, DecidableEq

/-- Supabase `{data, error}` pair of the notification-token select. -/
structure TokenQueryRes where
  data : Option (List String)
  error : Option String
deriving Repr, DecidableEq

/-- The payload of `NotificationService.sendPushNotifications` (title and
body; the structured data field carries no logic). -/
structure NotificationMessage where
  title : String
  body : String
deriving Repr, DecidableEq

/-- Oracles for the collaborators of the notification service: the token
select (an `Except.error` models a rejected promise), Expo token syntax
validation, chunking, the batch send (an `Except.error` models a gateway
throw) and the token delete. -/
structure NotifEnv where
  tokensResult : Except String TokenQueryRes
  isExpoPushToken : String → Bool
  chunk : List PushMsg → List (List PushMsg)
  send : List PushMsg → Except String (List PushTicket)
  deleteToken : String → Except String (Option String)

/-- `try { x } catch (e) { h e }` in the `Except` embedding. -/
def tryCatchE {α : Type} (x : Except String α) (h : String → Except String α) :
    Except String α :=
  match x with
  | Except.ok a => Except.ok a
  | Except.error e => h e

/-- `NotificationService.removeInvalidToken`: delete the token, log a
store error, catch any throw. -/
def removeInvalidToken (env : NotifEnv) (token : String) : Except String Unit :=
  tryCatchE
    (do
      let r ← env.deleteToken token
      match r with
      | some _ => return ()
      | none => return ())
    (fun _ => Except.ok ())

/-- The per-chunk ticket loop: on an error ticket whose cause is
`DeviceNotRegistered`, read `chunk[i].to` (a missing element throws) and
delete the token when it is truthy. -/
def processTickets (env : NotifEnv) (c : List PushMsg) :
    List PushTicket → Nat → Except String Unit
  | [], _ => Except.ok ()
  | t :: rest, i =>
    let step : Except String Unit :=
      if t.status == "error" then
        if t.errorDetail == some "DeviceNotRegistered" then
          match c.get? i with
          | none => Except.error "TypeError: cannot read properties of undefined"
          | some m =>
            if m.dest != "" then removeInvalidToken env m.dest else Except.ok ()
        else Except.ok ()
      else Except.ok ()
    match step with
    | Except.ok _ => processTickets env c rest (i + 1)
    | Except.error e => Except.error e

/-- The chunk loop of `sendPushNotifications`: each chunk's send and
ticket processing sits in its own try/catch; a caught error logs and the
loop continues with the next chunk. -/
def processChunks (env : NotifEnv) : List (List PushMsg) → Except String Unit
  | [] => Except.ok ()
  | c :: cs =>
    match tryCatchE
        (do
          let tickets ← env.send c
          processTickets env c tickets 0)
        (fun _ => Except.ok ()) with
    | Except.ok _ => processChunks env cs
    | Except.error e => Except.error e

/-- `NotificationService.sendPushNotifications`: early-return on empty
recipient list, fetch tokens, bail out on store error / no tokens / no
syntactically valid tokens, otherwise chunk and send; the whole body is
wrapped in a try/catch that swallows every error. -/
def sendPushNotifications (env : NotifEnv) (userIds : List String)
    (message : NotificationMessage) : Except String Unit :=
  if userIds.isEmpty then Except.ok ()
  else
    tryCatchE
      (do
        let res ← env.tokensResult
        match res.error with
        | some _ => return ()
        | none =>
          match res.data with
          | none => return ()
          | some tokens =>
            if tokens.isEmpty then return ()
            else
              let messages := tokens.map (fun t =>
                ({ dest := t, title := message.title, body := message.body } : PushMsg))
              let validMessages := messages.filter (fun m => env.isExpoPushToken m.dest)
              if validMessages.isEmpty then return ()
              else processChunks env (env.chunk validMessages))
      (fun _ => Except.ok ())

/-- C7: for every oracle behaviour — token fetch rejected or erroring,
every token invalid, every gateway send throwing — the dispatcher returns
normally (never an `Except.error`). -/
theorem sendPushNotifications_total (env : NotifEnv) (userIds : List String)
    (message : NotificationMessage) :
    sendPushNotifications env userIds message = Except.ok () := by
  unfold sendPushNotifications
  split
  · rfl
  · unfold tryCatchE
    split
    · rename_i a h
      cases a
      rfl
    · rfl

/-- The `txRequest` object of the fulfill route (`from`, `to`, `value`). -/
structure TxRequest where
  fromAddr : String
  toAddr : String
  value : Option Int
deriving Repr, DecidableEq

/-- Oracles of the transaction routes: the broadcast call (an error models
a thrown provider exception caught by the handler's try/catch), the amount
formatting `ethers.formatUnits(value, 6)` as the numeric value the store
receives (an error models a formatting throw, caught and defaulted to 0),
the row id generated by the insert and the clock. -/
structure RouteEnv where
  broadcastTx : String → Except String String
  formatUnitsSix : Int → Except String ℚ
  newTxId : String
  now : Nat

/-- Result of one route handler invocation. -/
structure HandlerResult where
  status : Nat
  store : Store
  notifs : List NotificationEvent
deriving Repr, DecidableEq

/-- POST /transactions/request/fulfill: validate fields, fetch the
request, reject a caller who is not the requestee with 403, otherwise
broadcast, insert the pending transaction row and mark the request
completed. -/
def fulfillPaymentRequest (env : RouteEnv) (s : Store) (userId : String)
    (requestId : String) (txRequest : Option TxRequest)
    (signedTransaction : Option String) : HandlerResult :=
  if requestId == "" || txRequest.isNone || strFalsy signedTransaction then
    { status := 400, store := s, notifs := [] }
  else
    match s.payment_requests.find? (fun r => r.id == requestId) with
    | none => { status := 404, store := s, notifs := [] }
    | some request =>
      if request.requestee_id != userId then
        { status := 403, store := s, notifs := [] }
      else
        match env.broadcastTx (signedTransaction.getD "") with
        | Except.error _ => { status := 500, store := s, notifs := [] }
        | Except.ok txHash =>
          let txr := txRequest.getD { fromAddr := "", toAddr := "", value := none }
          let formattedAmount :=
            match env.formatUnitsSix (txr.value.getD 0) with
            | Except.ok a => a
            | Except.error _ => 0
          let row : TxRow :=
            { hash := txHash, from_user_id := some userId,
              to_user_id := some request.requester_id,
              from_address := txr.fromAddr, to_address := txr.toAddr,
              amount := formattedAmount, asset := "USDC", fee := 0,
              status := "pending", method_id := some 3,
              request_id := some requestId, updated_at := none,
              created_at := some env.now }
          let s1 := { s with transactions := s.transactions ++ [row] }
          let s2 := { s1 with payment_requests := s1.payment_requests.map (fun r =>
            if r.id == requestId then
              { r with status := "completed", fulfilled_by := some env.newTxId,
                       updated_at := some env.now }
            else r) }
          { status := 200, store := s2, notifs := [] }

/-- POST /transactions/request/decline: only the requestee may decline;
an unauthorized caller receives 403 and nothing changes. -/
def declinePaymentRequest (env : RouteEnv) (s : Store) (userId callerName : String)
    (requestId : String) : HandlerResult :=
  if requestId == "" then { status := 400, store := s, notifs := [] }
  else
    match s.payment_requests.find? (fun r => r.id == requestId) with
    | none => { status := 404, store := s, notifs := [] }
    | some request =>
      if request.requestee_id != userId then
        { status := 403, store := s, notifs := [] }
      else
        let s1 := { s with payment_requests := s.payment_requests.map (fun r =>
          if r.id == requestId then
            { r with status := "declined", updated_at := some env.now }
          else r) }
        { status := 200, store := s1,
          notifs := [⟨[request.requester_id], "Payment Request",
            "Your payment request has been declined by " ++ callerName⟩] }

/-- POST /transactions/request/cancel: only the requester may cancel; an
unauthorized caller receives 403 and nothing changes. -/
def cancelPaymentRequest (env : RouteEnv) (s : Store) (userId callerName : String)
    (requestId : String) : HandlerResult :=
  if requestId == "" then { status := 400, store := s, notifs := [] }
  else
    match s.payment_requests.find? (fun r => r.id == requestId) with
    | none => { status := 404, store := s, notifs := [] }
    | some request =>
      if request.requester_id != userId then
        { status := 403, store := s, notifs := [] }
      else
        let s1 := { s with payment_requests := s.payment_requests.map (fun r =>
          if r.id == requestId then
            { r with status := "canceled", updated_at := some env.now }
          else r) }
        { status := 200, store := s1,
          notifs := [⟨[request.requestee_id], "Payment Request",
            "Your payment request has been cancelled by " ++ callerName⟩] }

/-- C8: terminal-state transitions of a payment request are owner-only: a
fulfill or decline attempt by a caller who is not the requestee, and a
cancel attempt by a caller who is not the requester, are rejected with
HTTP 403 and leave the store — in particular the request's status —
unchanged. -/
theorem paymentRequest_ownership (env : RouteEnv) (s : Store)
    (userId callerName requestId : String) (request : PaymentRequestRow)
    (txRequest : TxRequest) (signedTransaction : String)
    (hid : requestId ≠ "")
    (hsig : signedTransaction ≠ "")
    (hfind : s.payment_requests.find? (fun r => r.id == requestId) = some request) :
    (request.requestee_id ≠ userId →
      fulfillPaymentRequest env s userId requestId (some txRequest)
          (some signedTransaction) = { status := 403, store := s, notifs := [] } ∧
      declinePaymentRequest env s userId callerName requestId
        = { status := 403, store := s, notifs := [] }) ∧
    (request.requester_id ≠ userId →
      cancelPaymentRequest env s userId callerName requestId
        = { status := 403, store := s, notifs := [] }) := by
  have hid' : (requestId == "") = false := by simp [hid]
  have hsig' : (signedTransaction == "") = false := by simp [hsig]
  constructor
  · intro hne
    have hne' : (request.requestee_id != userId) = true := by simp [bne, hne]
    constructor
    · unfold fulfillPaymentRequest
      simp only [hid', Option.isNone_some, strFalsy, hsig', Bool.or_self,
        Bool.false_or, Bool.false_eq_true, if_false, hfind, hne', if_true]
    · unfold declinePaymentRequest
      simp only [hid', Bool.false_eq_true, if_false, hfind, hne', if_true]
  · intro hne
    have hne' : (request.requester_id != userId) = true := by simp [bne, hne]
    unfold cancelPaymentRequest
    simp only [hid', Bool.false_eq_true, if_false, hfind, hne', if_true]

/-- A pending payment request from alice (requester) to bob (requestee). -/
def reqRow : PaymentRequestRow :=
  { id := "r1", requester_id := "alice", requestee_id := "bob",
    status := "pending", fulfilled_by := none, updated_at := none }

/-- A store holding that one payment request. -/
def storeReq : Store :=
  { transactions := [], wallets := [], profiles := [], payment_requests := [reqRow] }

/-- A trivial route environment for concrete runs. -/
def routeEnvW : RouteEnv :=
  { broadcastTx := fun _ => Except.ok "0xbr", formatUnitsSix := fun _ => Except.ok 0,
    newTxId := "t1", now := 0 }

/-- Witness for C8: the stranger mallory can neither fulfill, decline nor
cancel the alice-to-bob request; every attempt yields 403 and the store is
unchanged. -/
theorem paymentRequest_ownership_witness :
    (fulfillPaymentRequest routeEnvW storeReq "mallory" "r1"
        (some { fromAddr := "0xA", toAddr := "0xB", value := some 1 }) (some "0xsig")
      = { status := 403, store := storeReq, notifs := [] } ∧
     declinePaymentRequest routeEnvW storeReq "mallory" "Mallory M" "r1"
      = { status := 403, store := storeReq, notifs := [] }) ∧
    cancelPaymentRequest routeEnvW storeReq "mallory" "Mallory M" "r1"
      = { status := 403, store := storeReq, notifs := [] } := by
  have h := paymentRequest_ownership routeEnvW storeReq "mallory" "Mallory M" "r1"
    reqRow { fromAddr := "0xA", toAddr := "0xB", value := some 1 } "0xsig"
    (by decide) (by decide) rfl
  exact ⟨h.1 (by decide), h.2 (by decide)⟩
